import Mathlib

/-!
Shallow embedding of the Boat_tracker download orchestration engine
(src/download_api.py and src/app.py).

Modelling conventions:
* Calendar dates are `Nat` (day numbers).  Python `date` arithmetic
  (`timedelta(days = n)`, comparison, subtraction) is exact day arithmetic,
  so `+ n`, `<`, `≤` and truncated `-` on `Nat` model it faithfully for
  valid ranges.
* A request window is a pair `(from_date, to_date) : Nat × Nat`.
* A CSV chunk is its parsed row list `Rows = List (List String)`
  (`csv.reader` yields one `List String` per line).
* The per-vessel output directory is a `VDir`: a `present` flag
  (`os.path.exists`) and an association list of files.  The source names a
  chunk file `track_{vessel_id}_{from_date}_{to_date}.csv` (resp.
  `vessel_track_..` in download_api.py); since the vessel id is fixed within
  a directory and the ISO dates are fixed width, that name is injective in
  the window and lexicographic filename order equals lexicographic window
  order, so the window pair itself serves as the file key here.
* Identifier strings are taken after `str(v).strip()`: the source strips
  its input once at the top of each fetcher, so all definitions receive the
  already-stripped string.
* The HTTP layer is an oracle: `Option Rows` per request, `none` meaning a
  non-2xx status or transport error (`raise_for_status` / httpx exception),
  `some body` a successful response with body `body`.  Sleeps have no
  observable effect on the data flow and are not modelled; the orchestrator
  records the duration it would sleep instead.
-/

abbrev Rows : Type := List (List String)

/-- Per-vessel output directory: existence flag plus files keyed by the
request window embedded in the chunk filename. -/
structure VDir where
  present : Bool
  files : List ((Nat × Nat) × Rows)

/-- `open(path, "wb")` then `write`: replaces any file with the same name and
appends the new one. -/
def writeFile (files : List ((Nat × Nat) × Rows)) (w : Nat × Nat) (b : Rows) :
    List ((Nat × Nat) × Rows) :=
  files.filter (fun p => p.1 != w) ++ [(w, b)]

/-- `if os.path.exists(output_dir): shutil.rmtree(output_dir)` followed by
`os.makedirs(output_dir, exist_ok=True)`: whatever was there before, the
directory now exists and is empty. -/
def clearDir (_d : VDir) : VDir := ⟨true, []⟩

/-- app.py `validate_dates` (lines 22-30): returns the day span on success
(`("正確", delta)`), `none` models the bare error-string return for
`start_date > end_date`. -/
def validate_dates (start_date end_date : Nat) : Option Nat :=
  if start_date > end_date then none else some (end_date - start_date)

/-- One iteration step of the window-splitting `while current_start <
end_date` loop shared by download_api.py lines 90-108 and app.py lines
76-86, with explicit fuel.  Each iteration advances `current_start` by at
least 181 days, so `end_date - current_start` iterations always suffice
(`splitGo_fuel` below shows any sufficient fuel gives the same list). -/
def splitGo : Nat → Nat → Nat → List (Nat × Nat)
  | 0, _, _ => []
  | fuel + 1, cur, e =>
    if cur < e then
      (cur, min (cur + 180) e) :: splitGo fuel (min (cur + 180) e + 1) e
    else []

/-- The sequence of `(current_start, current_end)` windows the splitting
loop fetches for the range `(s, e)`. -/
def split_windows (s e : Nat) : List (Nat × Nat) :=
  splitGo (e - s) s e

/-- Identifier query-parameter kind: `"MMSI"` or `"imo"`. -/
inductive IdParam where
  | MMSI : IdParam
  | imo : IdParam
deriving DecidableEq

/-- download_api.py lines 27-33: length 9 chooses the `MMSI` parameter,
length 7 chooses `imo`, anything else is rejected before any request. -/
def classifyApi (vid : String) : Option IdParam :=
  if vid.length = 9 then some IdParam.MMSI
  else if vid.length = 7 then some IdParam.imo
  else none

/-- app.py line 43: `id_param = "MMSI" if len(vessel_id) == 9 else "imo"` —
no rejection branch. -/
def classifyApp (vid : String) : IdParam :=
  if vid.length = 9 then IdParam.MMSI else IdParam.imo

/-- download_api.py `fetch_vessel_track` (lines 10-61): reject bad-length
ids before any request; on response error (`raise_for_status` or transport)
return `False` leaving the directory untouched; on success create the
directory if absent and write the whole body as one chunk file. -/
def fetch_vessel_track_api (vid : String) (w : Nat × Nat) (resp : Option Rows)
    (d : VDir) : Bool × VDir :=
  match classifyApi vid with
  | none => (false, d)
  | some _ =>
    match resp with
    | none => (false, d)
    | some body => (true, ⟨true, writeFile d.files w body⟩)

/-- app.py `fetch_vessel_track` (lines 38-65): same request/persist logic
but the id parameter is chosen by `classifyApp` and never rejected. -/
def fetch_vessel_track_app (vid : String) (w : Nat × Nat) (resp : Option Rows)
    (d : VDir) : Bool × VDir :=
  let _idp := classifyApp vid
  match resp with
  | none => (false, d)
  | some body => (true, ⟨true, writeFile d.files w body⟩)

/-- The fetch loop shared by both download tasks: fetch every window in
order, AND the outcomes into `all_success`, thread the directory through. -/
def runWindows (fetch : Nat × Nat → VDir → Bool × VDir) :
    List (Nat × Nat) → VDir → Bool × VDir
  | [], d => (true, d)
  | w :: ws, d =>
    ((fetch w d).1 && (runWindows fetch ws (fetch w d).2).1,
     (runWindows fetch ws (fetch w d).2).2)

/-- app.py `download_task` (lines 67-86): clear and recreate the per-vessel
directory, then run the splitting loop directly — no date validation and no
single-window special case. -/
def download_task (vid : String) (resp : Nat × Nat → Option Rows)
    (s e : Nat) (d : VDir) : Bool × VDir :=
  runWindows (fun w dir => fetch_vessel_track_app vid w (resp w) dir)
    (split_windows s e) (clearDir d)

/-- download_api.py `download_vessel_track_data` (lines 63-109): validate the
range first (returning `False` before touching anything on `start > end`),
clear and recreate the directory, then either one whole-range fetch when the
span is at most 180 days or the splitting loop otherwise. -/
def download_vessel_track_data (vid : String) (resp : Nat × Nat → Option Rows)
    (s e : Nat) (d : VDir) : Bool × VDir :=
  match validate_dates s e with
  | none => (false, d)
  | some days =>
    if days ≤ 180 then
      fetch_vessel_track_api vid (s, e) (resp (s, e)) (clearDir d)
    else
      runWindows (fun w dir => fetch_vessel_track_api vid w (resp w) dir)
        (splitGo (e - s) s e) (clearDir d)

/-- The window sequence `download_vessel_track_data` fetches for a valid
range: one whole-range window when the span is at most 180 days, the loop's
windows otherwise. -/
def api_windows (s e : Nat) : List (Nat × Nat) :=
  if e - s ≤ 180 then [(s, e)] else split_windows s e

/-! ## Chunk merger (app.py main_logic lines 140-157) -/

/-- Python truthiness of the `header` variable: `None` and `[]` are falsy. -/
def truthyHeader : Option (List String) → Bool
  | none => false
  | some l => !l.isEmpty

/-- `if header: w.writerow(header)` — the header row is written only when
truthy. -/
def headerOut : Option (List String) → Rows
  | none => []
  | some h => if h.isEmpty then [] else [h]

/-- The merge loop: for each chunk `h = next(reader)` (an empty chunk raises
`StopIteration`, swallowed by the bare `except`, contributing nothing);
`if not header: header = h`; remaining rows are appended to `combined`. -/
def merge_loop : Option (List String) → Rows → List Rows →
    Option (List String) × Rows
  | header, combined, [] => (header, combined)
  | header, combined, c :: cs =>
    match c with
    | [] => merge_loop header combined cs
    | h :: rows =>
      merge_loop (if truthyHeader header then header else some h)
        (combined ++ rows) cs

/-- Consolidated file content produced from the chunk contents in processing
order: the final header (if truthy) followed by all accumulated rows. -/
def mergeRows (cs : List Rows) : Rows :=
  headerOut (merge_loop none [] cs).1 ++ (merge_loop none [] cs).2

/-- Codepoint-lexicographic order on strings, as Python `sorted` uses. -/
def charListLe : List Char → List Char → Bool
  | [], _ => true
  | _ :: _, [] => false
  | a :: as, b :: bs =>
    if a < b then true else if b < a then false else charListLe as bs

def nameLe (a b : String) : Bool := charListLe a.data b.data

/-- Insertion step of an insertion sort by a boolean comparator. -/
def insertBy (le : α → α → Bool) (x : α) : List α → List α
  | [] => [x]
  | y :: ys => if le x y then x :: y :: ys else y :: insertBy le x ys

/-- Insertion sort by a boolean comparator, modelling Python `sorted`. -/
def sortBy (le : α → α → Bool) (l : List α) : List α :=
  l.foldr (insertBy le) []

/-- `f.endswith(".csv")`. -/
def strEndsWith (s suf : String) : Bool := suf.data.isSuffixOf s.data

/-- The merger over a directory listing of `(filename, parsed rows)` pairs:
`for f in sorted(os.listdir(target_dir)): if f.endswith(".csv"): ...`. -/
def merge_csv_files (files : List (String × Rows)) : Rows :=
  mergeRows
    ((sortBy (fun a b => nameLe a.1 b.1)
      (files.filter (fun p => strEndsWith p.1 ".csv"))).map Prod.snd)

/-- Lexicographic order on window pairs: chunk filenames embed the fixed
width dates right after the shared `track_{vid}_` stem, so sorting the
directory listing by filename is sorting by window. -/
def winLe (a b : Nat × Nat) : Bool :=
  if a.1 < b.1 then true
  else if b.1 < a.1 then false
  else decide (a.2 ≤ b.2)

/-- The merger applied to a per-vessel chunk directory (all chunk files end
in `.csv`). -/
def merge_chunk_dir (files : List ((Nat × Nat) × Rows)) : Rows :=
  mergeRows ((sortBy (fun a b => winLe a.1 b.1) files).map Prod.snd)

/-! ## Batch orchestrator (app.py main_logic lines 120-178) -/

/-- One iteration body of `for i, vid in enumerate(ids)`: run the download
task; on success, if the per-vessel directory exists, merge its chunks into
`temp_root/{vid}.csv` and remember that file for the archive. -/
def process_vessel (task : String → Bool × VDir) (vid : String) :
    Bool × Option Rows :=
  if (task vid).1 then
    if (task vid).2.present then
      (true, some (merge_chunk_dir (task vid).2.files))
    else (true, none)
  else (false, none)

/-- The orchestrator loop: per identifier, in input order, one outcome
record, an archive entry `{vid}.csv` when merged, and — except after the
last identifier — a recorded cooldown of `success_wait` or `fail_wait`
seconds depending on that identifier's outcome. -/
def main_logic_loop (task : String → Bool × VDir)
    (success_wait fail_wait : Nat) :
    List String → List (String × Bool) × List (String × Rows) × List Nat
  | [] => ([], [], [])
  | vid :: rest =>
    ((vid, (process_vessel task vid).1) :: (main_logic_loop task success_wait fail_wait rest).1,
     (match (process_vessel task vid).2 with
      | some c => [(vid ++ ".csv", c)]
      | none => []) ++ (main_logic_loop task success_wait fail_wait rest).2.1,
     (if rest.isEmpty then []
      else [if (process_vessel task vid).1 then success_wait else fail_wait])
       ++ (main_logic_loop task success_wait fail_wait rest).2.2)

/-- The whole batch run wired the way `main_logic` calls it: each vessel's
task is app.py's `download_task` over the shared range, starting from a
fresh per-vessel directory under `temp_root`. -/
def main_logic_run (resp : String → Nat × Nat → Option Rows)
    (s e success_wait fail_wait : Nat) (ids : List String) :
    List (String × Bool) × List (String × Rows) × List Nat :=
  main_logic_loop (fun v => download_task v (resp v) s e ⟨false, []⟩)
    success_wait fail_wait ids

/-! ## Spec-side definitions (for refinement comparisons) -/

/-- Modelled from the spec for C7: "the first chunk's header becomes the
shared header" — the header row of the first chunk that has any rows at
all. -/
def firstHeaderClaimed (cs : List Rows) : Option (List String) :=
  (cs.filterMap List.head?).head?

/-- All data rows (everything after each chunk's header row), in chunk
order. -/
def dataRows (cs : List Rows) : Rows :=
  cs.foldr (fun c acc => c.drop 1 ++ acc) []

/-- Modelled from the spec's words for C7: consolidated output = the first
(non-skipped) chunk's header row followed by every chunk's data rows in
chunk order. -/
def mergeSpecClaimed (cs : List Rows) : Rows :=
  (match firstHeaderClaimed cs with
   | some h => [h]
   | none => []) ++ dataRows cs

/-- The claimed merger applied to a directory listing the same way
`merge_csv_files` is. -/
def merge_csv_files_claimed (files : List (String × Rows)) : Rows :=
  mergeSpecClaimed
    ((sortBy (fun a b => nameLe a.1 b.1)
      (files.filter (fun p => strEndsWith p.1 ".csv"))).map Prod.snd)

/-- The amended header: the first header row that is itself non-empty
(Python's `if not header:` treats an empty header row as "no header yet"). -/
def firstRealHeader (cs : List Rows) : Option (List String) :=
  ((cs.filterMap List.head?).filter (fun h => !h.isEmpty)).head?

/-- Amended merger characterisation: first non-empty header row (if any)
followed by every chunk's data rows in chunk order. -/
def mergeSpecAmended (cs : List Rows) : Rows :=
  (match firstRealHeader cs with
   | some h => [h]
   | none => []) ++ dataRows cs

/-! ## Helper lemmas: the splitting loop -/

/-- When the loop guard already fails, any fuel yields no windows. -/
lemma splitGo_of_not_lt {cur e : Nat} (h : ¬ cur < e) :
    ∀ fuel, splitGo fuel cur e = [] := by
  intro fuel
  cases fuel with
  | zero => rfl
  | succ n => simp [splitGo, h]

/-- Fuel irrelevance: any fuel at least `e - cur` (an upper bound on the
number of remaining loop iterations) computes the same window list, so
`split_windows` is the while loop's behaviour. -/
lemma splitGo_fuel : ∀ (f₁ f₂ cur e : Nat), e - cur ≤ f₁ → e - cur ≤ f₂ →
    splitGo f₁ cur e = splitGo f₂ cur e := by
  intro f₁
  induction f₁ with
  | zero =>
    intro f₂ cur e h₁ h₂
    have hnl : ¬ cur < e := by omega
    rw [splitGo_of_not_lt hnl, splitGo_of_not_lt hnl]
  | succ n ih =>
    intro f₂ cur e h₁ h₂
    cases f₂ with
    | zero =>
      have hnl : ¬ cur < e := by omega
      rw [splitGo_of_not_lt hnl, splitGo_of_not_lt hnl]
    | succ m =>
      by_cases hlt : cur < e
      · simp only [splitGo, if_pos hlt]
        have hmin : cur ≤ min (cur + 180) e := by omega
        have : e - (min (cur + 180) e + 1) ≤ n := by omega
        have h2' : e - (min (cur + 180) e + 1) ≤ m := by omega
        rw [ih m (min (cur + 180) e + 1) e this h2']
      · simp [splitGo, hlt]

/-- Every window the loop emits starts no earlier than the current cursor. -/
lemma splitGo_start_le : ∀ (fuel cur e : Nat) (w : Nat × Nat),
    w ∈ splitGo fuel cur e → cur ≤ w.1 := by
  intro fuel
  induction fuel with
  | zero => intro cur e w hw; simp [splitGo] at hw
  | succ n ih =>
    intro cur e w hw
    by_cases hlt : cur < e
    · simp only [splitGo, if_pos hlt, List.mem_cons] at hw
      rcases hw with rfl | hw
      · exact Nat.le_refl _
      · have := ih (min (cur + 180) e + 1) e w hw
        omega
    · simp [splitGo, hlt] at hw

/-- The emitted windows are pairwise distinct (their starts strictly
increase). -/
lemma splitGo_nodup : ∀ (fuel cur e : Nat), (splitGo fuel cur e).Nodup := by
  intro fuel
  induction fuel with
  | zero => intro cur e; simp [splitGo]
  | succ n ih =>
    intro cur e
    by_cases hlt : cur < e
    · simp only [splitGo, if_pos hlt, List.nodup_cons]
      refine ⟨fun hmem => ?_, ih _ _⟩
      have := splitGo_start_le n (min (cur + 180) e + 1) e _ hmem
      simp at this
      omega
    · simp [splitGo, hlt]

lemma split_windows_nodup (s e : Nat) : (split_windows s e).Nodup :=
  splitGo_nodup _ _ _

/-! ## Helper lemmas: the fetch loop -/

/-- Canonical form of one fetch against the response oracle. -/
def stepFetch (resp : Nat × Nat → Option Rows) (w : Nat × Nat) (d : VDir) :
    Bool × VDir :=
  match resp w with
  | none => (false, d)
  | some body => (true, ⟨true, writeFile d.files w body⟩)

lemma fetch_app_eq_step (vid : String) (resp : Nat × Nat → Option Rows)
    (w : Nat × Nat) (d : VDir) :
    fetch_vessel_track_app vid w (resp w) d = stepFetch resp w d := by
  unfold fetch_vessel_track_app stepFetch
  cases resp w <;> rfl

lemma fetch_api_eq_step (vid : String) (resp : Nat × Nat → Option Rows)
    (hid : vid.length = 9 ∨ vid.length = 7) (w : Nat × Nat) (d : VDir) :
    fetch_vessel_track_api vid w (resp w) d = stepFetch resp w d := by
  unfold fetch_vessel_track_api stepFetch classifyApi
  rcases hid with h | h <;> simp [h]

lemma runWindows_congr (f g : Nat × Nat → VDir → Bool × VDir)
    (h : ∀ w d, f w d = g w d) :
    ∀ (ws : List (Nat × Nat)) (d : VDir),
      runWindows f ws d = runWindows g ws d := by
  intro ws
  induction ws with
  | nil => intro d; rfl
  | cons w ws ih =>
    intro d
    simp only [runWindows, h, ih]

lemma runWindows_step_fst (resp : Nat × Nat → Option Rows) :
    ∀ (ws : List (Nat × Nat)) (d : VDir),
      (runWindows (stepFetch resp) ws d).1
        = ws.all (fun w => (resp w).isSome) := by
  intro ws
  induction ws with
  | nil => intro d; rfl
  | cons w ws ih =>
    intro d
    simp only [runWindows, List.all_cons]
    cases hr : resp w <;> simp [stepFetch, hr, ih]

lemma runWindows_step_present (resp : Nat × Nat → Option Rows) :
    ∀ (ws : List (Nat × Nat)) (d : VDir), d.present = true →
      (runWindows (stepFetch resp) ws d).2.present = true := by
  intro ws
  induction ws with
  | nil => intro d h; exact h
  | cons w ws ih =>
    intro d h
    simp only [runWindows]
    cases hr : resp w
    · exact ih _ (by simp [stepFetch, hr, h])
    · exact ih _ (by simp [stepFetch, hr])

lemma filter_keys_eq (files : List ((Nat × Nat) × Rows)) (w : Nat × Nat)
    (h : ∀ p ∈ files, p.1 ≠ w) :
    files.filter (fun p => p.1 != w) = files := by
  induction files with
  | nil => rfl
  | cons f fs ih =>
    have h1 : (f.1 != w) = true := by
      simp [bne_iff_ne]
      exact h f (List.mem_cons_self _ _)
    simp only [List.filter_cons, h1, if_pos trivial]
    rw [ih (fun p hp => h p (List.mem_cons_of_mem _ hp))]

/-- The final directory contents of the fetch loop over pairwise-distinct
windows: the previous files (none of which is keyed by an upcoming window)
followed by one chunk per successful window, in window order. -/
lemma runWindows_step_files (resp : Nat × Nat → Option Rows) :
    ∀ (ws : List (Nat × Nat)) (d : VDir),
      (∀ w ∈ ws, ∀ p ∈ d.files, p.1 ≠ w) → ws.Nodup →
      (runWindows (stepFetch resp) ws d).2.files
        = d.files ++ ws.filterMap
            (fun w => (resp w).map (fun b => ((w : Nat × Nat), b))) := by
  intro ws
  induction ws with
  | nil => intro d _ _; simp [runWindows]
  | cons w ws ih =>
    intro d hdisj hnd
    have hndtail : ws.Nodup := (List.nodup_cons.mp hnd).2
    have hwnotin : w ∉ ws := (List.nodup_cons.mp hnd).1
    simp only [runWindows, List.filterMap_cons]
    cases hr : resp w with
    | none =>
      have hstep : (stepFetch resp w d).2 = d := by simp [stepFetch, hr]
      rw [hstep, ih d (fun w' hw' p hp => hdisj w' (List.mem_cons_of_mem _ hw') p hp) hndtail]
      simp [hr]
    | some b =>
      have hstep : (stepFetch resp w d).2 = ⟨true, writeFile d.files w b⟩ := by
        simp [stepFetch, hr]
      rw [hstep]
      have hfilter : writeFile d.files w b = d.files ++ [(w, b)] := by
        unfold writeFile
        rw [filter_keys_eq d.files w (fun p hp => hdisj w (List.mem_cons_self _ _) p hp)]
      have hdisj' : ∀ w' ∈ ws, ∀ p ∈ (VDir.mk true (writeFile d.files w b)).files, p.1 ≠ w' := by
        intro w' hw' p hp
        simp only [hfilter, List.mem_append, List.mem_singleton] at hp
        rcases hp with hp | rfl
        · exact hdisj w' (List.mem_cons_of_mem _ hw') p hp
        · intro hEq
          simp only at hEq
          exact hwnotin (by rwa [hEq])
      rw [ih _ hdisj' hndtail]
      simp [hfilter, hr]

/-! ## Helper lemmas: the merger -/

lemma merge_loop_snd : ∀ (cs : List Rows) (header : Option (List String))
    (combined : Rows),
    (merge_loop header combined cs).2 = combined ++ dataRows cs := by
  intro cs
  induction cs with
  | nil => intro header combined; simp [merge_loop, dataRows]
  | cons c cs ih =>
    intro header combined
    cases c with
    | nil =>
      simp only [merge_loop]
      rw [ih]
      simp [dataRows]
    | cons h rows =>
      simp only [merge_loop]
      rw [ih]
      simp [dataRows, List.append_assoc]

lemma merge_loop_fst_truthy : ∀ (cs : List Rows) (header : Option (List String))
    (combined : Rows), truthyHeader header = true →
    (merge_loop header combined cs).1 = header := by
  intro cs
  induction cs with
  | nil => intro header combined _; rfl
  | cons c cs ih =>
    intro header combined ht
    cases c with
    | nil => exact ih header combined ht
    | cons h rows =>
      simp only [merge_loop, if_pos ht]
      exact ih header _ ht

lemma merge_loop_fst_falsy : ∀ (cs : List Rows) (header : Option (List String))
    (combined : Rows), truthyHeader header = false →
    headerOut (merge_loop header combined cs).1
      = (match firstRealHeader cs with
         | some h => [h]
         | none => []) := by
  intro cs
  induction cs with
  | nil =>
    intro header combined hf
    cases header with
    | none => rfl
    | some l =>
      simp only [truthyHeader, Bool.not_eq_false', List.isEmpty_iff] at hf
      subst hf
      rfl
  | cons c cs ih =>
    intro header combined hf
    cases c with
    | nil =>
      simp only [merge_loop]
      rw [ih header combined hf]
      simp [firstRealHeader]
    | cons h rows =>
      simp only [merge_loop, if_neg (by simp [hf] : ¬ truthyHeader header = true)]
      by_cases hE : h.isEmpty
      · have hf' : truthyHeader (some h) = false := by simp [truthyHeader, hE]
        rw [ih (some h) (combined ++ rows) hf']
        have : h = [] := List.isEmpty_iff.mp hE
        subst this
        simp [firstRealHeader]
      · have ht : truthyHeader (some h) = true := by simp [truthyHeader, hE]
        rw [merge_loop_fst_truthy cs (some h) (combined ++ rows) ht]
        simp only [headerOut, if_neg hE]
        simp [firstRealHeader, List.filter_cons, hE]

/-- The merger's output on a list of chunk contents: the first non-empty
header row (if any chunk has one) followed by all data rows in chunk
order. -/
lemma mergeRows_eq_amended (cs : List Rows) :
    mergeRows cs = mergeSpecAmended cs := by
  unfold mergeRows mergeSpecAmended
  rw [merge_loop_snd cs none [], merge_loop_fst_falsy cs none [] rfl]
  simp

/-! ## Helper lemmas: the orchestrator -/

/-- app.py's download task always leaves the per-vessel directory present
(`os.makedirs` recreates it unconditionally). -/
lemma download_task_present (vid : String) (resp : Nat × Nat → Option Rows)
    (s e : Nat) (d : VDir) :
    (download_task vid resp s e d).2.present = true := by
  unfold download_task
  rw [runWindows_congr _ _ (fun w dir => fetch_app_eq_step vid resp w dir)]
  exact runWindows_step_present resp _ (clearDir d) rfl

/-- Unrolled characterisation of the orchestrator loop. -/
lemma main_logic_loop_eq (task : String → Bool × VDir)
    (success_wait fail_wait : Nat)
    (hp : ∀ v, (task v).2.present = true) :
    ∀ ids : List String,
      main_logic_loop task success_wait fail_wait ids
        = (ids.map (fun v => (v, (task v).1)),
           (ids.filter (fun v => (task v).1)).map
             (fun v => (v ++ ".csv", merge_chunk_dir (task v).2.files)),
           ids.dropLast.map
             (fun v => if (task v).1 then success_wait else fail_wait)) := by
  intro ids
  induction ids with
  | nil => rfl
  | cons vid rest ih =>
    have hpv : process_vessel task vid
        = ((task vid).1,
           if (task vid).1 then some (merge_chunk_dir (task vid).2.files)
           else none) := by
      unfold process_vessel
      cases hres : (task vid).1 <;> simp [hp vid, hres]
    simp only [main_logic_loop, ih, hpv]
    cases hres : (task vid).1 with
    | false =>
      simp only [List.map_cons, List.filter_cons, hres]
      cases rest with
      | nil => simp [hres]
      | cons r rs => simp [hres]
    | true =>
      simp only [List.map_cons, List.filter_cons, hres]
      cases rest with
      | nil => simp [hres]
      | cons r rs => simp [hres]

/-- Assembled behaviour of the fetch loop started on the freshly cleared
per-vessel directory. -/
lemma runWindows_step_clear (resp : Nat × Nat → Option Rows)
    (ws : List (Nat × Nat)) (hnd : ws.Nodup) :
    runWindows (stepFetch resp) ws ⟨true, []⟩
      = (ws.all (fun w => (resp w).isSome),
         ⟨true, ws.filterMap (fun w => (resp w).map (fun b => (w, b)))⟩) := by
  have h1 := runWindows_step_fst resp ws ⟨true, []⟩
  have h2 := runWindows_step_files resp ws ⟨true, []⟩
    (by intro w hw p hp; simp at hp) hnd
  have h3 := runWindows_step_present resp ws ⟨true, []⟩ rfl
  rcases hE : runWindows (stepFetch resp) ws ⟨true, []⟩ with ⟨b, pres, fls⟩
  rw [hE] at h1 h2 h3
  simp only at h1 h2 h3
  simp [h1, h2, h3]

/-! ## Claims -/

/-- Claim C1 (code_bug evaluation): at start = day 0, end = day 181 (start
≤ end, span 181 days) both download tasks produce the single window
(0, 180): every produced window ends before day 181, so the last window
does not end at `end` and day 181 is never requested, contradicting the
claimed exact coverage of [start, end]. -/
theorem C1_code_bug_eval :
    split_windows 0 181 = [(0, 180)]
    ∧ (split_windows 0 181).all (fun w => decide (w.2 < 181)) = true
    ∧ (download_vessel_track_data "416000000" (fun _ => some [["x"]]) 0 181
        ⟨false, []⟩).2.files.map Prod.fst = [(0, 180)]
    ∧ (download_task "416000000" (fun _ => some [["x"]]) 0 181
        ⟨false, []⟩).2.files.map Prod.fst = [(0, 180)] :=
  ⟨rfl, rfl, rfl, rfl⟩

/-- Claim C2 (code_bug evaluation): for start = end = 5,
`download_vessel_track_data` issues exactly one single-day whole-range
fetch as the claim states, but app.py's `download_task` — whose loop guard
is `current_start < end_date` — issues zero fetches (no window at all) and
still reports success, so the claim fails on the task the orchestrator
actually runs. -/
theorem C2_code_bug_eval :
    split_windows 5 5 = []
    ∧ download_task "9123456" (fun _ => some [["x"]]) 5 5 ⟨false, []⟩
        = (true, ⟨true, []⟩)
    ∧ download_vessel_track_data "9123456" (fun _ => some [["x"]]) 5 5
        ⟨false, []⟩ = (true, ⟨true, [((5, 5), [["x"]])]⟩) :=
  ⟨rfl, rfl, rfl⟩

/-- Claim C3 (counterexample): the 5-character identifier "12345" is not
rejected by app.py's fetcher — it is classified as `imo` and the request is
still issued (here it succeeds and a chunk file is written), contradicting
"for any other length fails with InvalidIdentifier and issues no network
request". -/
theorem C3_counterexample :
    fetch_vessel_track_app "12345" (0, 1) (some [["r"]]) ⟨false, []⟩
        = (true, ⟨true, [((0, 1), [["r"]])]⟩)
    ∧ classifyApp "12345" = IdParam.imo
    ∧ classifyApi "12345" = none :=
  ⟨rfl, rfl, rfl⟩

/-- Claim C3 (amended), full characterisation over every identifier:
download_api.py's classifier yields MMSI iff the length is 9, imo iff the
length is 7, and rejects (`none`) iff the length is neither — and on a
rejected identifier its fetcher returns failure with the directory
untouched, for every response oracle, i.e. without issuing a request;
app.py's classifier yields MMSI iff the length is 9 and imo for every other
length (including 7), and its fetcher always issues the request (a
successful response is always persisted, whatever the length). -/
theorem C3_amended_thm (vid : String) (w : Nat × Nat) (resp : Option Rows)
    (b : Rows) (d d' : VDir) :
    (classifyApi vid = some IdParam.MMSI ↔ vid.length = 9)
    ∧ (classifyApi vid = some IdParam.imo ↔ vid.length = 7)
    ∧ (classifyApi vid = none ↔ (vid.length ≠ 9 ∧ vid.length ≠ 7))
    ∧ (classifyApp vid = IdParam.MMSI ↔ vid.length = 9)
    ∧ (classifyApp vid = IdParam.imo ↔ vid.length ≠ 9)
    ∧ (classifyApi vid = none → fetch_vessel_track_api vid w resp d = (false, d))
    ∧ fetch_vessel_track_app vid w (some b) d'
        = (true, ⟨true, writeFile d'.files w b⟩) := by
  by_cases h9 : vid.length = 9
  · have h7 : vid.length ≠ 7 := by omega
    refine ⟨?_, ?_, ?_, ?_, ?_, ?_, rfl⟩ <;>
      simp [classifyApi, classifyApp, h9, h7]
  · by_cases h7 : vid.length = 7
    · refine ⟨?_, ?_, ?_, ?_, ?_, ?_, rfl⟩ <;>
        simp [classifyApi, classifyApp, h9, h7]
    · have hc : classifyApi vid = none := by simp [classifyApi, h9, h7]
      refine ⟨?_, ?_, ?_, ?_, ?_, fun _ => ?_, rfl⟩
      · simp [classifyApi, h9, h7]
      · simp [classifyApi, h9, h7]
      · simp [hc, h9, h7]
      · simp [classifyApp, h9]
      · simp [classifyApp, h9]
      · unfold fetch_vessel_track_api
        rw [hc]

/-- Witness for C3_amended_thm, discharging the no-request implication at
the invalid identifier "12345" and the positive classifications at the
valid identifiers "416000000" (MMSI) and "9123456" (imo). -/
theorem C3_amended_witness :
    classifyApi "12345" = none
    ∧ classifyApp "12345" = IdParam.imo
    ∧ fetch_vessel_track_api "12345" (0, 1) (some [["r"]]) ⟨false, []⟩
        = (false, ⟨false, []⟩)
    ∧ fetch_vessel_track_app "12345" (0, 1) (some [["r"]]) ⟨true, []⟩
        = (true, ⟨true, writeFile [] (0, 1) [["r"]]⟩)
    ∧ classifyApi "416000000" = some IdParam.MMSI
    ∧ classifyApi "9123456" = some IdParam.imo
    ∧ classifyApp "9123456" = IdParam.imo := by
  have h1 := C3_amended_thm "12345" (0, 1) (some [["r"]]) [["r"]]
    ⟨false, []⟩ ⟨true, []⟩
  have h2 := C3_amended_thm "416000000" (0, 1) none [["r"]]
    ⟨false, []⟩ ⟨true, []⟩
  have h3 := C3_amended_thm "9123456" (0, 1) none [["r"]]
    ⟨false, []⟩ ⟨true, []⟩
  have hc : classifyApi "12345" = none :=
    h1.2.2.1.mpr ⟨by decide, by decide⟩
  exact ⟨hc, h1.2.2.2.2.1.mpr (by decide), h1.2.2.2.2.2.1 hc,
    h1.2.2.2.2.2.2, h2.1.mpr (by decide), h3.2.1.mpr (by decide),
    h3.2.2.2.2.1.mpr (by decide)⟩

/-- Claim C4 (counterexample): for start = 5 > end = 3, app.py's
`download_task` does not fail with InvalidRange — it performs zero fetches
and returns success, contradicting "fails with InvalidRange (returns
failure) before issuing any fetch". -/
theorem C4_counterexample :
    download_task "9123456" (fun _ => some [["x"]]) 5 3 ⟨false, []⟩
        = (true, ⟨true, []⟩)
    ∧ split_windows 5 3 = [] :=
  ⟨rfl, rfl⟩

/-- Claim C4 (amended): `download_vessel_track_data` returns failure before
any fetch (directory untouched, for every response oracle) when start >
end, and treats start = end as a valid single-window range; app.py's
`download_task` performs no validation — for start > end it issues zero
fetches and returns success, and it likewise treats start = end as zero
windows. -/
theorem C4_amended_thm (vid : String) (resp : Nat × Nat → Option Rows)
    (s e : Nat) (d : VDir) (h : e < s) :
    download_vessel_track_data vid resp s e d = (false, d)
    ∧ download_task vid resp s e d = (true, ⟨true, []⟩)
    ∧ split_windows s e = []
    ∧ (∀ t : Nat,
        download_vessel_track_data vid resp t t d
          = fetch_vessel_track_api vid (t, t) (resp (t, t)) ⟨true, []⟩
        ∧ split_windows t t = []) := by
  have hv : validate_dates s e = none := by
    unfold validate_dates
    rw [if_pos h]
  have hz : e - s = 0 := by omega
  refine ⟨?_, ?_, ?_, ?_⟩
  · unfold download_vessel_track_data
    rw [hv]
  · unfold download_task split_windows
    rw [hz]
    rfl
  · unfold split_windows
    rw [hz]
    rfl
  · intro t
    constructor
    · unfold download_vessel_track_data validate_dates
      simp [clearDir]
    · unfold split_windows
      rw [Nat.sub_self]
      rfl

/-- Witness for C4_amended_thm at start = 5, end = 3 (and the start = end
part at t = 7), from a non-empty pre-existing directory. -/
theorem C4_amended_witness :
    download_vessel_track_data "9123456" (fun _ => some [["x"]]) 5 3
        ⟨true, [((0, 0), [["y"]])]⟩
        = (false, ⟨true, [((0, 0), [["y"]])]⟩)
    ∧ download_task "9123456" (fun _ => some [["x"]]) 5 3
        ⟨true, [((0, 0), [["y"]])]⟩ = (true, ⟨true, []⟩)
    ∧ split_windows 5 3 = []
    ∧ (download_vessel_track_data "9123456" (fun _ => some [["x"]]) 7 7
          ⟨true, [((0, 0), [["y"]])]⟩
          = fetch_vessel_track_api "9123456" (7, 7) (some [["x"]]) ⟨true, []⟩
       ∧ split_windows 7 7 = []) := by
  have h := C4_amended_thm "9123456" (fun _ => some [["x"]]) 5 3
    ⟨true, [((0, 0), [["y"]])]⟩ (by decide)
  exact ⟨h.1, h.2.1, h.2.2.1, h.2.2.2 7⟩

/-- Claim C5: for a valid identifier, both fetchers return failure on a
non-2xx/transport error leaving the target directory exactly as it was
(no file written, not even created), and on success return success having
created the directory and written the complete response body as the one
chunk file keyed by the window. -/
theorem C5_thm (vid : String) (w : Nat × Nat) (d : VDir)
    (h : vid.length = 9 ∨ vid.length = 7) :
    fetch_vessel_track_api vid w none d = (false, d)
    ∧ (∀ b : Rows, fetch_vessel_track_api vid w (some b) d
        = (true, ⟨true, writeFile d.files w b⟩))
    ∧ fetch_vessel_track_app vid w none d = (false, d)
    ∧ (∀ b : Rows, fetch_vessel_track_app vid w (some b) d
        = (true, ⟨true, writeFile d.files w b⟩)) := by
  have hc : ∃ k, classifyApi vid = some k := by
    rcases h with h | h
    · exact ⟨IdParam.MMSI, by simp [classifyApi, h]⟩
    · exact ⟨IdParam.imo, by simp [classifyApi, h]⟩
  obtain ⟨k, hk⟩ := hc
  refine ⟨?_, ?_, rfl, fun b => rfl⟩
  · unfold fetch_vessel_track_api
    rw [hk]
  · intro b
    unfold fetch_vessel_track_api
    rw [hk]

/-- Witness for C5_thm at identifier "416000000", window (3, 9), and a
directory that is absent but remembers an old chunk. -/
theorem C5_witness :
    fetch_vessel_track_api "416000000" (3, 9) none ⟨false, [((1, 2), [["old"]])]⟩
        = (false, ⟨false, [((1, 2), [["old"]])]⟩)
    ∧ fetch_vessel_track_api "416000000" (3, 9) (some [["body"]])
        ⟨false, [((1, 2), [["old"]])]⟩
        = (true, ⟨true, writeFile [((1, 2), [["old"]])] (3, 9) [["body"]]⟩)
    ∧ fetch_vessel_track_app "416000000" (3, 9) none ⟨false, [((1, 2), [["old"]])]⟩
        = (false, ⟨false, [((1, 2), [["old"]])]⟩)
    ∧ fetch_vessel_track_app "416000000" (3, 9) (some [["body"]])
        ⟨false, [((1, 2), [["old"]])]⟩
        = (true, ⟨true, writeFile [((1, 2), [["old"]])] (3, 9) [["body"]]⟩) := by
  have h := C5_thm "416000000" (3, 9) ⟨false, [((1, 2), [["old"]])]⟩
    (Or.inl (by decide))
  exact ⟨h.1, h.2.1 [["body"]], h.2.2.1, h.2.2.2 [["body"]]⟩

/-- Claim C6: over any valid range and response oracle, each download task
returns success exactly when every window's fetch succeeded (AND-semantics,
no short-circuit: later windows are fetched even after an earlier failure),
and the final per-vessel directory holds exactly the chunks of the windows
whose fetch succeeded, in window order — so successful chunks remain even
when the overall result is failure. -/
theorem C6_thm (vid : String) (resp : Nat × Nat → Option Rows) (s e : Nat)
    (d : VDir) (hid : vid.length = 9 ∨ vid.length = 7) (hse : s ≤ e) :
    (download_task vid resp s e d).1
        = (split_windows s e).all (fun w => (resp w).isSome)
    ∧ (download_task vid resp s e d).2.files
        = (split_windows s e).filterMap
            (fun w => (resp w).map (fun b => (w, b)))
    ∧ (download_vessel_track_data vid resp s e d).1
        = (api_windows s e).all (fun w => (resp w).isSome)
    ∧ (download_vessel_track_data vid resp s e d).2.files
        = (api_windows s e).filterMap
            (fun w => (resp w).map (fun b => (w, b))) := by
  have happ : download_task vid resp s e d
      = ((split_windows s e).all (fun w => (resp w).isSome),
         ⟨true, (split_windows s e).filterMap
            (fun w => (resp w).map (fun b => (w, b)))⟩) := by
    unfold download_task
    rw [runWindows_congr _ _ (fun w dir => fetch_app_eq_step vid resp w dir)]
    exact runWindows_step_clear resp _ (split_windows_nodup s e)
  have hv : validate_dates s e = some (e - s) := by
    unfold validate_dates
    rw [if_neg (by omega)]
  have hapi : download_vessel_track_data vid resp s e d
      = ((api_windows s e).all (fun w => (resp w).isSome),
         ⟨true, (api_windows s e).filterMap
            (fun w => (resp w).map (fun b => (w, b)))⟩) := by
    unfold download_vessel_track_data
    rw [hv]
    simp only
    by_cases hd : e - s ≤ 180
    · rw [if_pos hd]
      rw [fetch_api_eq_step vid resp hid (s, e) (clearDir d)]
      unfold api_windows
      rw [if_pos hd]
      cases hr : resp (s, e) <;>
        simp [stepFetch, hr, writeFile, clearDir]
    · rw [if_neg hd]
      rw [runWindows_congr _ _ (fun w dir => fetch_api_eq_step vid resp hid w dir)]
      unfold api_windows
      rw [if_neg hd]
      exact runWindows_step_clear resp _ (split_windows_nodup s e)
  exact ⟨by rw [happ], by rw [happ], by rw [hapi], by rw [hapi]⟩

/-- Response oracle for the C6 witness: the window starting at day 181 (the
middle of three) fails, the others succeed. -/
def respC6 : Nat × Nat → Option Rows :=
  fun w => if w.1 = 181 then none else some [["x"]]

/-- Witness for C6_thm: identifier "416000000", range (0, 400) (three
windows), middle window failing. -/
theorem C6_witness :
    (download_task "416000000" respC6 0 400 ⟨false, []⟩).1
        = (split_windows 0 400).all (fun w => (respC6 w).isSome)
    ∧ (download_task "416000000" respC6 0 400 ⟨false, []⟩).2.files
        = (split_windows 0 400).filterMap
            (fun w => (respC6 w).map (fun b => (w, b)))
    ∧ (download_vessel_track_data "416000000" respC6 0 400 ⟨false, []⟩).1
        = (api_windows 0 400).all (fun w => (respC6 w).isSome)
    ∧ (download_vessel_track_data "416000000" respC6 0 400 ⟨false, []⟩).2.files
        = (api_windows 0 400).filterMap
            (fun w => (respC6 w).map (fun b => (w, b))) :=
  C6_thm "416000000" respC6 0 400 ⟨false, []⟩ (Or.inl (by decide)) (by decide)

/-- Claim C7 (counterexample): with a first chunk whose header row is the
empty row and a second chunk with header ["a","b"], the merger's
`if not header:` falsiness test makes the second chunk's header the shared
header, not the first chunk's, so the consolidated output differs from the
claimed one. -/
theorem C7_counterexample :
    merge_csv_files
        [("a.csv", [[], ["1", "2"]]), ("b.csv", [["a", "b"], ["3", "4"]])]
        = [["a", "b"], ["1", "2"], ["3", "4"]]
    ∧ merge_csv_files_claimed
        [("a.csv", [[], ["1", "2"]]), ("b.csv", [["a", "b"], ["3", "4"]])]
        = [[], ["1", "2"], ["3", "4"]]
    ∧ merge_csv_files
        [("a.csv", [[], ["1", "2"]]), ("b.csv", [["a", "b"], ["3", "4"]])]
        ≠ merge_csv_files_claimed
        [("a.csv", [[], ["1", "2"]]), ("b.csv", [["a", "b"], ["3", "4"]])] := by
  refine ⟨rfl, rfl, by decide⟩

/-- Claim C7 (amended): the merger processes the `.csv` files in
filename-sorted order, never fails, silently skips chunks with no rows, and
produces the first NON-EMPTY header row among the chunks (a chunk whose
header row is empty contributes its data rows but not the header) followed
by every chunk's data rows in chunk order. -/
theorem C7_amended_thm (files : List (String × Rows)) :
    merge_csv_files files
      = mergeSpecAmended
          ((sortBy (fun a b => nameLe a.1 b.1)
            (files.filter (fun p => strEndsWith p.1 ".csv"))).map Prod.snd) := by
  unfold merge_csv_files
  exact mergeRows_eq_amended _

/-- Claim C8: the orchestrator produces exactly one per-vessel outcome per
input identifier in input order, merges (producing the archive entry
`{vid}.csv`) exactly for the identifiers whose download task succeeded, and
after every identifier except the last records a cooldown of success-wait
seconds on success and fail-wait seconds on failure. -/
theorem C8_thm (resp : String → Nat × Nat → Option Rows)
    (s e success_wait fail_wait : Nat) (ids : List String) :
    main_logic_run resp s e success_wait fail_wait ids
      = (ids.map (fun v => (v, (download_task v (resp v) s e ⟨false, []⟩).1)),
         (ids.filter (fun v => (download_task v (resp v) s e ⟨false, []⟩).1)).map
           (fun v => (v ++ ".csv",
             merge_chunk_dir (download_task v (resp v) s e ⟨false, []⟩).2.files)),
         ids.dropLast.map
           (fun v => if (download_task v (resp v) s e ⟨false, []⟩).1
             then success_wait else fail_wait)) := by
  unfold main_logic_run
  exact main_logic_loop_eq _ _ _
    (fun v => download_task_present v (resp v) s e _) ids

/-- Claim C9: the download tasks first clear and recreate the per-vessel
directory, so their outcome is independent of any prior directory state and
running a task twice yields exactly the same result (hence the same chunk
set) as running it once. -/
theorem C9_thm (vid : String) (resp : Nat × Nat → Option Rows) (s e : Nat)
    (d : VDir) :
    download_task vid resp s e (download_task vid resp s e d).2
        = download_task vid resp s e d
    ∧ (∀ d' : VDir, download_task vid resp s e d'
        = download_task vid resp s e d)
    ∧ download_vessel_track_data vid resp s e
        (download_vessel_track_data vid resp s e d).2
        = download_vessel_track_data vid resp s e d := by
  refine ⟨rfl, fun d' => rfl, ?_⟩
  cases hv : validate_dates s e with
  | none => simp [download_vessel_track_data, hv]
  | some days => simp [download_vessel_track_data, hv, clearDir]

/-- Claim C10: every identifier whose download task reports success gets a
consolidated archive entry named `{vid}.csv` whose content is the merge of
its chunk directory — and when that directory holds no chunk at all the
entry's content is empty; a successful vessel is never omitted from the
archive. -/
theorem C10_thm (resp : String → Nat × Nat → Option Rows)
    (s e success_wait fail_wait : Nat) (ids : List String) (v : String)
    (hv : v ∈ ids)
    (hs : (download_task v (resp v) s e ⟨false, []⟩).1 = true) :
    (v ++ ".csv",
      merge_chunk_dir (download_task v (resp v) s e ⟨false, []⟩).2.files)
        ∈ (main_logic_run resp s e success_wait fail_wait ids).2.1
    ∧ ((download_task v (resp v) s e ⟨false, []⟩).2.files = [] →
        merge_chunk_dir (download_task v (resp v) s e ⟨false, []⟩).2.files
          = ([] : Rows)) := by
  constructor
  · unfold main_logic_run
    rw [main_logic_loop_eq _ _ _
      (fun x => download_task_present x (resp x) s e _) ids]
    simp only
    apply List.mem_map.mpr
    refine ⟨v, ?_, rfl⟩
    exact List.mem_filter.mpr ⟨hv, by simp [hs]⟩
  · intro hnil
    rw [hnil]
    rfl

/-- Response oracle for the C10 witness: every request succeeds. -/
def respC10 : String → Nat × Nat → Option Rows := fun _ _ => some [["x"]]

/-- Witness for C10_thm: the single identifier "9123456" over the single-day
range (5, 5); its task succeeds with zero chunks, and the archive still
contains the (empty) entry "9123456.csv". -/
theorem C10_witness :
    ("9123456" ++ ".csv",
      merge_chunk_dir (download_task "9123456" (respC10 "9123456") 5 5
        ⟨false, []⟩).2.files)
        ∈ (main_logic_run respC10 5 5 60 20 ["9123456"]).2.1
    ∧ ((download_task "9123456" (respC10 "9123456") 5 5 ⟨false, []⟩).2.files = [] →
        merge_chunk_dir (download_task "9123456" (respC10 "9123456") 5 5
          ⟨false, []⟩).2.files = ([] : Rows)) :=
  C10_thm respC10 5 5 60 20 ["9123456"] "9123456" (by simp) rfl
